import Mathlib

/-!
Shallow embedding of the ride-request status logic of the GoTogether client
(`src/pages/RideRequests.jsx`) and of the request-button guard of the ride
detail page (`canRequestRide` and the action-button branch of `RideDetail`).

Modelling conventions:
* JavaScript `undefined` (an absent field) is `Option.none`; `null` is not
  distinguished from `undefined`.
* JS string truthiness (`undefined` and `""` are falsy) is `truthy`; JS
  `||` on optional strings is `jsOrS`.
* Date-valued fields (`createdAt`, `departureTime`, `time`) are modelled as
  already-parsed epoch values (`Option Int`); an absent or falsy raw field
  is `none`.
* Network calls are suspension points: each handler is modelled as a pure
  transition taking the (successful or failed) response as a parameter,
  together with booleans recording whether a call was issued and whether a
  toast notification fired.
-/

namespace GoTogether

/-- JS truthiness of an optional string: `undefined` and `""` are falsy. -/
def truthy : Option String → Bool
  | none => false
  | some s => s != ""

/-- JS `a || b` on optional strings: `b` when `a` is falsy. -/
def jsOrS (a b : Option String) : Option String :=
  if truthy a then a else b

/-- A user reference as it appears in payloads: absent, a plain id string,
or an object carrying optional `id` and `_id` fields. -/
inductive UserRef where
  | undef
  | str (s : String)
  | obj (id : Option String) (_id : Option String)
deriving DecidableEq, Repr

/-- JS truthiness of a user reference: `undefined` and `""` are falsy,
every object is truthy. -/
def UserRef.truthyB : UserRef → Bool
  | .undef => false
  | .str s => s != ""
  | .obj _ _ => true

/-- Property access `u.id` (and `u?.id`): `undefined` unless `u` is an
object with the field. -/
def UserRef.idField : UserRef → Option String
  | .obj i _ => i
  | _ => none

/-- Property access `u._id` (and `u?._id`): `undefined` unless `u` is an
object with the field. -/
def UserRef.mongoId : UserRef → Option String
  | .obj _ m => m
  | _ => none

/-- JS strict equality between a user-reference value and an optional
string, as in `p.user === user.id`: equal strings compare true, and so does
`undefined === undefined`; an object never strictly equals a string or
`undefined`. -/
def UserRef.strictEqS : UserRef → Option String → Bool
  | .undef, none => true
  | .str s, some t => s == t
  | _, _ => false

/-- The session user from the auth context; `user.id` and `user._id` are
read directly and may each be absent. -/
structure SessionUser where
  id : Option String
  _id : Option String
deriving DecidableEq, Repr

/-- One entry of a passengers array. -/
structure Passenger where
  user : UserRef
  status : Option String
deriving DecidableEq, Repr

/-- The ride object embedded in a request (`request.ride`); `passengers` is
`none` when the field is absent or not an array. -/
structure EmbeddedRide where
  id : Option String
  _id : Option String
  passengers : Option (List Passenger)
deriving DecidableEq, Repr

/-- A ride-request payload as consumed by `RideRequests.jsx`. -/
structure Request where
  id : Option String
  _id : Option String
  userRequestStatus : Option String
  status : Option String
  passengers : Option (List Passenger)
  ride : Option EmbeddedRide
  createdAt : Option Int
  departureTime : Option Int
  time : Option Int
deriving DecidableEq, Repr

/-- `typeof p.user === 'string' ? p.user : (p.user?.id || p.user?._id)`
(RideRequests.jsx line 110; the same idiom resolves `ride.creator` in the
detail page). -/
def passengerScalarId : UserRef → Option String
  | .str s => some s
  | u => jsOrS u.idField u.mongoId

/-- Matcher used on the request's own passenger list (lines 108-112 and
264-268) and inside `refreshSingleRideStatus` (lines 202-205):
`passengerId === user.id || passengerId === user._id`. -/
def matchesTop (user : SessionUser) (p : Passenger) : Bool :=
  passengerScalarId p.user == user.id || passengerScalarId p.user == user._id

/-- Matcher used on the passenger list nested under the embedded ride
(lines 125-129 and 280-284): `p.user === user.id ||
(p.user && p.user.id === user.id) || (p.user && p.user._id === user.id)`.
Note that it only ever compares against `user.id`. -/
def matchesNested (user : SessionUser) (p : Passenger) : Bool :=
  p.user.strictEqS user.id ||
    (p.user.truthyB && (p.user.idField == user.id)) ||
    (p.user.truthyB && (p.user.mongoId == user.id))

/-- `find` over a passenger list followed by the
`userPassenger && userPassenger.status` guard: the first matching entry's
status when that status is truthy, otherwise nothing (fall through). -/
def foundPassengerStatus (matcher : Passenger → Bool) (ps : List Passenger) : Option String :=
  match ps.find? matcher with
  | some p => if truthy p.status then p.status else none
  | none => none

/-- Step 3 of the normalizer: the current user's status from the request's
own passenger list (lines 107-121). -/
def topPassengerStatus (user : SessionUser) (request : Request) : Option String :=
  match request.passengers with
  | some ps => foundPassengerStatus (matchesTop user) ps
  | none => none

/-- Step 4 of the normalizer: the current user's status from the passenger
list nested under the embedded ride (lines 124-138). -/
def ridePassengerStatus (user : SessionUser) (request : Request) : Option String :=
  match request.ride with
  | some rd =>
    match rd.passengers with
    | some ps => foundPassengerStatus (matchesNested user) ps
    | none => none
  | none => none

/-- `request.status && request.status !== 'pending'` (line 101). -/
def directNonPending : Option String → Bool
  | some s => s != "" && s != "pending"
  | none => false

/-- The per-request status normalizer of `fetchRideRequests`
(lines 79-159); `refreshRideRequests` repeats the same logic verbatim at
lines 248-307.  Step 5 (scheduling a deferred background single-ride fetch
when no source resolved a status and a ride id is present) is a side effect
that does not alter the returned value. -/
def processRequest (user : SessionUser) (request : Request) : Request :=
  if truthy request.userRequestStatus then
    { request with status := request.userRequestStatus }
  else if directNonPending request.status then
    request
  else
    match topPassengerStatus user request with
    | some s => { request with status := some s }
    | none =>
      match ridePassengerStatus user request with
      | some s => { request with status := some s }
      | none => { request with status := some "pending" }

/-- The status value the normalizer resolves (the status projection of
`processRequest`), stated separately so that the frame property of the
normalizer is expressible. -/
def resolveStatus (user : SessionUser) (request : Request) : String :=
  if truthy request.userRequestStatus then
    request.userRequestStatus.getD ""
  else if directNonPending request.status then
    request.status.getD ""
  else
    match topPassengerStatus user request with
    | some s => s
    | none =>
      match ridePassengerStatus user request with
      | some s => s
      | none => "pending"

/-- `new Date(a.createdAt || a.departureTime || a.time || 0)` (lines
163-164 and 311-312) as an epoch value. -/
def recency (r : Request) : Int :=
  match r.createdAt with
  | some n => n
  | none =>
    match r.departureTime with
    | some n => n
    | none =>
      match r.time with
      | some n => n
      | none => 0

/-- The comparator `(a, b) => dateB - dateA` orders by non-increasing
recency. -/
def recencyGE (a b : Request) : Prop := recency b ≤ recency a

instance : DecidableRel recencyGE :=
  fun a b => inferInstanceAs (Decidable (recency b ≤ recency a))

instance : IsTotal Request recencyGE :=
  ⟨fun a b => le_total (recency b) (recency a)⟩

instance : IsTrans Request recencyGE :=
  ⟨fun _ _ _ hab hbc => le_trans hbc hab⟩

/-- `processedRequests.sort((a, b) => dateB - dateA)` (lines 162-166 and
310-314): a stable sort by non-increasing recency. -/
def sortByRecency (l : List Request) : List Request :=
  l.insertionSort recencyGE

/-- `r => ({id: r.id || r._id, status: r.status})` — the record shape
serialized for change detection (lines 317-323). -/
def statusPair (r : Request) : Option String × Option String :=
  (jsOrS r.id r._id, r.status)

/-- `JSON.stringify(new.map(statusPair)) !== JSON.stringify(old.map(statusPair))`;
JSON serialization is injective on these records (field presence and string
content are both recorded), so the string comparison is modelled as
componentwise list inequality. -/
def hasStatusChanges (newList oldList : List Request) : Bool :=
  newList.map statusPair != oldList.map statusPair

/-- The component-local state touched by the modelled handlers. -/
structure PageState where
  requests : List Request
  loading : Bool
  refreshing : Bool
deriving DecidableEq, Repr

/-- `fetchRideRequests` (lines 55-187) on a successful response whose
extracted request array is `payload`: guard `if (!user) return`, then
normalize, sort and store; `loading` ends false (`finally`). -/
def fetchRideRequests (userOpt : Option SessionUser) (st : PageState)
    (payload : List Request) : PageState :=
  match userOpt with
  | none => st
  | some user =>
    { st with requests := sortByRecency (payload.map (processRequest user)),
              loading := false }

/-- Result of one run of `refreshRideRequests`: the final component state,
whether a network call was issued, and whether the "status updated"
success toast fired. -/
structure RefreshOutcome where
  state : PageState
  networkCalled : Bool
  notified : Bool
deriving DecidableEq, Repr

/-- `refreshRideRequests` (lines 229-339) on a successful response whose
extracted request array is `payload`: guard `if (!user || loading) return`,
then normalize, sort, compare the serialized (id, status) pairs against the
previous list, toast on a difference, and store the new list in either
case; `refreshing` ends false (`finally`). -/
def refreshRideRequests (userOpt : Option SessionUser) (st : PageState)
    (payload : List Request) : RefreshOutcome :=
  match userOpt with
  | none => ⟨st, false, false⟩
  | some user =>
    if st.loading then ⟨st, false, false⟩
    else
      let processed := sortByRecency (payload.map (processRequest user))
      ⟨{ st with requests := processed, refreshing := false },
        true, hasStatusChanges processed st.requests⟩

/-- The ride details returned by `getRideById`, reduced to the field the
handler reads. -/
structure RideDetails where
  passengers : Option (List Passenger)
deriving DecidableEq, Repr

/-- `req.ride?.id === rideId || req.ride?._id === rideId ||
req.id === rideId || req._id === rideId` (line 213), with `rideId` a
(truthy) string. -/
def requestMatchesRide (rideId : String) (req : Request) : Bool :=
  (req.ride.bind EmbeddedRide.id == some rideId) ||
    (req.ride.bind EmbeddedRide._id == some rideId) ||
    (req.id == some rideId) ||
    (req._id == some rideId)

/-- `refreshSingleRideStatus` (lines 190-226) with the fetched ride details
`resp`; the second component records whether a network call was issued.
The guard `if (!rideId || refreshing || loading) return` makes the handler
a no-op while a bulk refresh or blocking load is in flight.  On success it
rewrites the status of every held request belonging to the ride whose
status differs (toasting once per rewrite, not modelled). -/
def refreshSingleRideStatus (user : SessionUser) (st : PageState)
    (rideId : Option String) (resp : RideDetails) : PageState × Bool :=
  match rideId with
  | none => (st, false)
  | some rid =>
    if rid == "" || st.refreshing || st.loading then (st, false)
    else
      match resp.passengers with
      | none => (st, true)
      | some ps =>
        match ps.find? (matchesTop user) with
        | some p =>
          if truthy p.status then
            ({ st with requests := st.requests.map (fun req =>
                if requestMatchesRide rid req && req.status != p.status then
                  { req with status := p.status }
                else req) }, true)
          else (st, true)
        | none => (st, true)

/-- Result of the backend cancel call: success, or failure carrying
`error.response.data` when present (outer `Option`) and its `message`
field when present (inner `Option`). -/
inductive CancelOutcome where
  | ok
  | failed (responseData : Option (Option String))
deriving DecidableEq, Repr

/-- A user-visible toast notification. -/
inductive Toast where
  | success (msg : String)
  | error (msg : String)
deriving DecidableEq, Repr

/-- `error.response && error.response.data` then
`error.response.data.message || errorMessage` (lines 360-363). -/
def cancelErrorMessage : Option (Option String) → String
  | some (some m) => if m == "" then "Failed to cancel ride request." else m
  | _ => "Failed to cancel ride request."

/-- `handleCancelRequest` (lines 342-369) after the user confirmed the
dialog; `outcome` is the backend call's result.  On success the held list
is filtered by `(req.id || req._id) !== requestId` and a success toast is
shown; on failure the state is untouched and an error toast carries the
backend message when truthy, else the fallback. -/
def handleCancelRequest (st : PageState) (requestId : String)
    (outcome : CancelOutcome) : PageState × Toast :=
  match outcome with
  | .ok =>
    ({ st with requests :=
        st.requests.filter (fun req => jsOrS req.id req._id != some requestId) },
      .success "Ride request cancelled successfully")
  | .failed rd => (st, .error (cancelErrorMessage rd))

/-- The ride shown by the detail page, reduced to the fields the request
guard reads. -/
structure Ride where
  creator : UserRef
  status : Option String
  availableSeats : Option Int
  seatsAvailable : Option Int
deriving DecidableEq, Repr

/-- `isCurrentUserDriver` (part_000 lines 1343-1351): resolve the creator
reference to a scalar id and compare it strictly against `user.id`. -/
def isCurrentUserDriver (userOpt : Option SessionUser) (rideOpt : Option Ride) : Bool :=
  match userOpt, rideOpt with
  | some user, some ride => passengerScalarId ride.creator == user.id
  | _, _ => false

/-- `isRideCompleted` (part_000 lines 1354-1356). -/
def isRideCompleted (rideOpt : Option Ride) : Bool :=
  match rideOpt with
  | some ride => ride.status == some "completed"
  | none => false

/-- `isRideCancelled` (part_000 lines 1359-1361). -/
def isRideCancelled (rideOpt : Option Ride) : Bool :=
  match rideOpt with
  | some ride => ride.status == some "cancelled"
  | none => false

/-- `x > 0` in JS where `x` may be `undefined` (`undefined > 0` is false). -/
def jsGtZero : Option Int → Bool
  | some n => decide (0 < n)
  | none => false

/-- `canRequestRide` (part_000 lines 1364-1373). -/
def canRequestRide (userOpt : Option SessionUser) (rideOpt : Option Ride)
    (requestStatus : Option String) : Bool :=
  if userOpt.isNone then false
  else if isCurrentUserDriver userOpt rideOpt then false
  else if truthy requestStatus then false
  else if isRideCancelled rideOpt then false
  else if isRideCompleted rideOpt then false
  else
    match rideOpt with
    | some ride => jsGtZero ride.availableSeats || jsGtZero ride.seatsAvailable
    | none => false

/-- The action-button branch of `RideDetail` (part_000 lines 1650-1699):
the "Request This Ride" button renders in the
`isCurrentUserDriver() ? _ : requestStatus ? _ : canRequestRide() ? button : _`
chain. -/
def requestButtonShown (userOpt : Option SessionUser) (rideOpt : Option Ride)
    (requestStatus : Option String) : Bool :=
  !isCurrentUserDriver userOpt rideOpt && !truthy requestStatus &&
    canRequestRide userOpt rideOpt requestStatus

/-- The claim's notion of an ambiguous payload entry for the current user:
no `userRequestStatus`, direct status absent or `"pending"`, and no
matching passenger entry carrying a status on either list. -/
def ambiguousFor (user : SessionUser) (request : Request) : Bool :=
  !truthy request.userRequestStatus && !directNonPending request.status &&
    (topPassengerStatus user request).isNone &&
    (ridePassengerStatus user request).isNone

/-- The recency resolver exactly as the claim words it: creation time,
falling back to departure time, falling back to epoch zero — without the
code's additional `time` fallback.  Kept distinct from `recency` to compare
the claim against the code. -/
def claimRecency (r : Request) : Int :=
  match r.createdAt with
  | some n => n
  | none =>
    match r.departureTime with
    | some n => n
    | none => 0

/-- An empty request payload, used to build concrete test fixtures. -/
def baseRequest : Request :=
  { id := none, _id := none, userRequestStatus := none, status := none,
    passengers := none, ride := none, createdAt := none,
    departureTime := none, time := none }

/-- Session user fixture whose `id` and `_id` both resolve to `"u9"`. -/
def userU9 : SessionUser := ⟨some "u9", some "u9"⟩

/-- The spec's scenario request `r1`: a pre-resolved `userRequestStatus`
conflicting with a direct `"pending"` status and a passenger entry. -/
def reqR1 : Request :=
  { baseRequest with
    id := some "r1"
    userRequestStatus := some "confirmed"
    status := some "pending"
    passengers := some [{ user := .str "u9", status := some "pending" }] }

/-- A passenger entry referring to user `"u9"` by plain id string. -/
def passengerU9 : Passenger := { user := .str "u9", status := some "rejected" }

/-- A session user whose `id` is `"u1"` but whose `_id` is `"u9"`. -/
def userMismatch : SessionUser := ⟨some "u1", some "u9"⟩

/-- A request carrying `passengerU9` on its own passenger list. -/
def reqTopU9 : Request :=
  { baseRequest with
    id := some "a"
    status := some "pending"
    passengers := some [passengerU9] }

/-- The same logical data as `reqTopU9`, but with the passenger entry on
the embedded ride's list instead. -/
def reqNestedU9 : Request :=
  { baseRequest with
    id := some "b"
    status := some "pending"
    ride := some { id := some "ride1", _id := none, passengers := some [passengerU9] } }

/-- A request displayed with terminal status `"confirmed"`. -/
def reqConfirmedR1 : Request :=
  { baseRequest with id := some "r1", status := some "confirmed" }

/-- An ambiguous payload entry for the same id `"r1"`. -/
def reqAmbiguousR1 : Request :=
  { baseRequest with id := some "r1", status := some "pending" }

/-- Page state displaying `"r1"` as confirmed, no load or refresh in
flight. -/
def stTerminal : PageState := ⟨[reqConfirmedR1], false, false⟩

/-- Page state with a blocking load in flight. -/
def stBusy : PageState := ⟨[reqConfirmedR1], true, false⟩

/-- Request `"a"`, confirmed, created at epoch 10. -/
def reqA10 : Request :=
  { baseRequest with id := some "a", status := some "confirmed", createdAt := some 10 }

/-- Request `"b"`, confirmed, created at epoch 5. -/
def reqB5 : Request :=
  { baseRequest with id := some "b", status := some "confirmed", createdAt := some 5 }

/-- Request `"a"` again, same status, but now with the smaller timestamp. -/
def reqA5 : Request :=
  { baseRequest with id := some "a", status := some "confirmed", createdAt := some 5 }

/-- Request `"b"` again, same status, but now with the larger timestamp. -/
def reqB10 : Request :=
  { baseRequest with id := some "b", status := some "confirmed", createdAt := some 10 }

/-- A request that carries only the legacy `time` field. -/
def reqTimeOnly : Request :=
  { baseRequest with id := some "x", status := some "confirmed", time := some 100 }

/-- A request with a `createdAt` between epoch zero and `reqTimeOnly.time`. -/
def reqCreated50 : Request :=
  { baseRequest with id := some "y", status := some "confirmed", createdAt := some 50 }

/-- The normalizer only rewrites the status field: it equals the input
updated with the separately stated resolved value. -/
lemma processRequest_eq (user : SessionUser) (request : Request) :
    processRequest user request =
      { request with status := some (resolveStatus user request) } := by
  obtain ⟨rid, mid, urs, rstatus, ps, ride, ca, dt, tm⟩ := request
  unfold processRequest resolveStatus
  by_cases h1 : truthy urs
  · rw [if_pos h1, if_pos h1]
    cases urs with
    | none => simp [truthy] at h1
    | some s => rfl
  · rw [if_neg h1, if_neg h1]
    by_cases h2 : directNonPending rstatus
    · rw [if_pos h2, if_pos h2]
      cases rstatus with
      | none => simp [directNonPending] at h2
      | some s => rfl
    · rw [if_neg h2, if_neg h2]
      cases topPassengerStatus user ⟨rid, mid, urs, rstatus, ps, ride, ca, dt, tm⟩ with
      | some s => rfl
      | none =>
        cases ridePassengerStatus user ⟨rid, mid, urs, rstatus, ps, ride, ca, dt, tm⟩ with
        | some s => rfl
        | none => rfl

/-- Resolving the status of a request whose status field was already set to
its resolved value resolves the same value again. -/
lemma resolveStatus_idem (user : SessionUser) (request : Request) :
    resolveStatus user { request with status := some (resolveStatus user request) } =
      resolveStatus user request := by
  obtain ⟨rid, mid, urs, rstatus, ps, ride, ca, dt, tm⟩ := request
  generalize hval : resolveStatus user ⟨rid, mid, urs, rstatus, ps, ride, ca, dt, tm⟩ = v
  show resolveStatus user ⟨rid, mid, urs, some v, ps, ride, ca, dt, tm⟩ = v
  unfold resolveStatus at hval ⊢
  by_cases h1 : truthy urs
  · rw [if_pos h1] at hval ⊢
    exact hval
  · rw [if_neg h1] at hval ⊢
    by_cases h2 : directNonPending rstatus
    · rw [if_pos h2] at hval
      cases rstatus with
      | none => simp [directNonPending] at h2
      | some s =>
        rw [Option.getD_some] at hval
        subst hval
        rw [if_pos h2]
        rfl
    · rw [if_neg h2] at hval
      have htop : topPassengerStatus user
            (⟨rid, mid, urs, some v, ps, ride, ca, dt, tm⟩ : Request) =
          topPassengerStatus user ⟨rid, mid, urs, rstatus, ps, ride, ca, dt, tm⟩ := rfl
      have hrideq : ridePassengerStatus user
            (⟨rid, mid, urs, some v, ps, ride, ca, dt, tm⟩ : Request) =
          ridePassengerStatus user ⟨rid, mid, urs, rstatus, ps, ride, ca, dt, tm⟩ := rfl
      by_cases h2v : directNonPending (some v)
      · rw [if_pos h2v]
        exact Option.getD_some
      · rw [if_neg h2v, htop, hrideq]
        cases h3 : topPassengerStatus user
            (⟨rid, mid, urs, rstatus, ps, ride, ca, dt, tm⟩ : Request) with
        | some s => rw [h3] at hval; exact hval
        | none =>
          rw [h3] at hval
          cases h4 : ridePassengerStatus user
              (⟨rid, mid, urs, rstatus, ps, ride, ca, dt, tm⟩ : Request) with
          | some s => rw [h4] at hval; exact hval
          | none => rw [h4] at hval; exact hval

/-- C4: whenever a non-empty `userRequestStatus` is present, the normalized
status equals it verbatim, whatever the direct status field or the
passenger lists say (step 1 takes precedence over steps 2-4). -/
theorem userRequestStatus_wins (user : SessionUser) (request : Request)
    (s : String) (hs : request.userRequestStatus = some s) (hne : s ≠ "") :
    (processRequest user request).status = some s := by
  simp [processRequest, hs, truthy, hne]

/-- C4 witness: the spec's scenario request `r1` (with `userRequestStatus`
`"confirmed"` conflicting with direct status `"pending"` and a pending
passenger entry) normalizes to `"confirmed"`. -/
theorem userRequestStatus_wins_witness :
    reqR1.userRequestStatus = some "confirmed" ∧ ("confirmed" : String) ≠ "" ∧
      (processRequest userU9 reqR1).status = some "confirmed" :=
  ⟨rfl, by decide, userRequestStatus_wins userU9 reqR1 "confirmed" rfl (by decide)⟩

/-- C5: the normalizer returns a copy of its input whose status field is
overwritten with the resolved canonical value; every other field is left
unchanged (the embedding is pure, so the input value itself cannot be
mutated). -/
theorem processRequest_frame (user : SessionUser) (request : Request) :
    processRequest user request =
      { request with status := some (resolveStatus user request) } :=
  processRequest_eq user request

/-- C9: normalization is idempotent — a request that is already the output
of the normalizer (its status field already holds the resolved canonical
value) is returned unchanged. -/
theorem processRequest_idempotent (user : SessionUser) (request r0 : Request)
    (h : request = processRequest user r0) :
    processRequest user request = request := by
  subst h
  rw [processRequest_eq user r0, processRequest_eq user _, resolveStatus_idem]

/-- C9 witness: normalizing the already-normalized scenario request `r1`
returns it unchanged. -/
theorem processRequest_idempotent_witness :
    processRequest userU9 (processRequest userU9 reqR1) =
      processRequest userU9 reqR1 :=
  processRequest_idempotent userU9 (processRequest userU9 reqR1) reqR1 rfl

/-- An ambiguous payload entry (no truthy `userRequestStatus`, no non-pending
direct status, no matching passenger status on either list) normalizes to the
`"pending"` default. -/
lemma ambiguous_processes_to_pending (user : SessionUser) (request : Request)
    (h : ambiguousFor user request = true) :
    (processRequest user request).status = some "pending" := by
  simp only [ambiguousFor, Bool.and_eq_true, Bool.not_eq_true',
    Option.isNone_iff_eq_none] at h
  obtain ⟨⟨⟨h1, h2⟩, h3⟩, h4⟩ := h
  simp [processRequest, h1, h2, h3, h4]

/-- C1 counterexample: request `"r1"` is displayed with terminal status
`"confirmed"`, the next refresh payload for the same id is ambiguous, and
the refresh changes the displayed status of `"r1"` to `"pending"`. -/
theorem refresh_regresses_terminal_status :
    stTerminal.requests.map Request.id = [some "r1"] ∧
    stTerminal.requests.map Request.status = [some "confirmed"] ∧
    ambiguousFor userU9 reqAmbiguousR1 = true ∧
    reqAmbiguousR1.id = some "r1" ∧
    (refreshRideRequests (some userU9) stTerminal [reqAmbiguousR1]).state.requests.map
      Request.id = [some "r1"] ∧
    (refreshRideRequests (some userU9) stTerminal [reqAmbiguousR1]).state.requests.map
      Request.status = [some "pending"] := by
  refine ⟨by decide, by decide, by decide, by decide, by decide, by decide⟩

/-- C1 amended: a successful refresh replaces the displayed list with the
normalization of the new payload alone — previously displayed statuses,
terminal or not, are never merged in — and every ambiguous payload entry
normalizes to `"pending"`.  A terminal displayed status therefore persists
only when the new payload itself resolves to it. -/
theorem refresh_replaces_with_normalized (user : SessionUser) (st : PageState)
    (payload : List Request) (h : st.loading = false) :
    (refreshRideRequests (some user) st payload).state.requests =
      sortByRecency (payload.map (processRequest user)) ∧
    ∀ request ∈ payload, ambiguousFor user request = true →
      (processRequest user request).status = some "pending" := by
  constructor
  · simp [refreshRideRequests, h]
  · exact fun request _ hreq => ambiguous_processes_to_pending user request hreq

/-- C1 amended witness: instantiated at the terminal-display state and the
ambiguous payload for `"r1"`. -/
theorem refresh_replaces_with_normalized_witness :
    (refreshRideRequests (some userU9) stTerminal [reqAmbiguousR1]).state.requests =
      sortByRecency ([reqAmbiguousR1].map (processRequest userU9)) ∧
    (processRequest userU9 reqAmbiguousR1).status = some "pending" :=
  ⟨(refresh_replaces_with_normalized userU9 stTerminal [reqAmbiguousR1] rfl).1,
    (refresh_replaces_with_normalized userU9 stTerminal [reqAmbiguousR1] rfl).2
      reqAmbiguousR1 (by simp) (by decide)⟩

/-- C2 counterexample: for the session user `{id: "u1", _id: "u9"}`, the
passenger entry `{user: "u9", status: "rejected"}` resolves to `"rejected"`
when it sits on the request's own passenger list (matched via `user._id`)
but to the `"pending"` default when the identical entry sits on the
embedded ride's list, whose matcher only compares against `user.id`. -/
theorem nested_match_ignores_mongo_id :
    (processRequest userMismatch reqTopU9).status = some "rejected" ∧
    (processRequest userMismatch reqNestedU9).status = some "pending" := by
  refine ⟨by decide, by decide⟩

/-- C2 amended: the top-level matcher compares the resolved passenger id
against both `user.id` and `user._id`, while the nested matcher compares
only against `user.id`; consequently the three user-reference shapes are
interchangeable on both lists whenever the match goes through a non-empty
`user.id`. -/
theorem shape_insensitive_via_user_id (uid s : String) (user : SessionUser)
    (ref : UserRef) (huid : uid ≠ "") (hs : s ≠ "") (hu : user.id = some uid)
    (href : ref = .str uid ∨ ref = .obj (some uid) none ∨ ref = .obj none (some uid)) :
    matchesTop user ⟨ref, some s⟩ = true ∧
    matchesNested user ⟨ref, some s⟩ = true ∧
    (processRequest user
        { baseRequest with passengers := some [⟨ref, some s⟩] }).status = some s ∧
    (processRequest user
        { baseRequest with ride := some ⟨none, none, some [⟨ref, some s⟩]⟩ }).status =
      some s := by
  have hmt : matchesTop user ⟨ref, some s⟩ = true := by
    rcases href with h | h | h <;> subst h <;>
      simp [matchesTop, passengerScalarId, jsOrS, truthy, UserRef.idField,
        UserRef.mongoId, hu, huid]
  have hmn : matchesNested user ⟨ref, some s⟩ = true := by
    rcases href with h | h | h <;> subst h <;>
      simp [matchesNested, UserRef.strictEqS, UserRef.truthyB, UserRef.idField,
        UserRef.mongoId, hu]
  refine ⟨hmt, hmn, ?_, ?_⟩
  · simp [processRequest, baseRequest, truthy, directNonPending, topPassengerStatus,
      foundPassengerStatus, List.find?, hmt, hs]
  · simp [processRequest, baseRequest, truthy, directNonPending, topPassengerStatus,
      ridePassengerStatus, foundPassengerStatus, List.find?, hmn, hs]

/-- C2 amended witness: instantiated at uid `"u1"`, status `"confirmed"`,
and the plain-string reference shape. -/
theorem shape_insensitive_via_user_id_witness :
    matchesTop ⟨some "u1", none⟩ ⟨.str "u1", some "confirmed"⟩ = true ∧
    matchesNested ⟨some "u1", none⟩ ⟨.str "u1", some "confirmed"⟩ = true ∧
    (processRequest ⟨some "u1", none⟩
        { baseRequest with
          passengers := some [⟨.str "u1", some "confirmed"⟩] }).status =
      some "confirmed" ∧
    (processRequest ⟨some "u1", none⟩
        { baseRequest with
          ride := some ⟨none, none, some [⟨.str "u1", some "confirmed"⟩]⟩ }).status =
      some "confirmed" :=
  shape_insensitive_via_user_id "u1" "confirmed" ⟨some "u1", none⟩ (.str "u1")
    (by decide) (by decide) rfl (Or.inl rfl)

/-- C3 counterexample: a first fetch stores `"a"` then `"b"` (both
confirmed); the next poll returns the same two (id, status) pairs but with
swapped timestamps, so the new sorted list is `"b"` then `"a"` — identical
pairs in a different order — and the refresh still fires the "status
updated" notification: the serialized comparison is order-sensitive. -/
theorem notification_order_sensitive :
    (fetchRideRequests (some userU9) ⟨[], true, false⟩ [reqA10, reqB5]).requests.map
      statusPair = [(some "a", some "confirmed"), (some "b", some "confirmed")] ∧
    (refreshRideRequests (some userU9)
        (fetchRideRequests (some userU9) ⟨[], true, false⟩ [reqA10, reqB5])
        [reqA5, reqB10]).state.requests.map statusPair =
      [(some "b", some "confirmed"), (some "a", some "confirmed")] ∧
    (refreshRideRequests (some userU9)
        (fetchRideRequests (some userU9) ⟨[], true, false⟩ [reqA10, reqB5])
        [reqA5, reqB10]).notified = true := by
  refine ⟨by decide, by decide, by decide⟩

/-- C3 amended: the refresh notifies exactly when the (id, status) pair
sequences of the new and previous lists differ in displayed order — equal
sequences stay silent, and any difference (including pure reordering)
notifies — and in both cases the new normalized list replaces the displayed
state. -/
theorem notification_iff_pair_sequences_differ (user : SessionUser) (st : PageState)
    (payload : List Request) (h : st.loading = false) :
    ((refreshRideRequests (some user) st payload).notified = true ↔
      (refreshRideRequests (some user) st payload).state.requests.map statusPair ≠
        st.requests.map statusPair) ∧
    (refreshRideRequests (some user) st payload).state.requests =
      sortByRecency (payload.map (processRequest user)) := by
  simp [refreshRideRequests, h, hasStatusChanges]

/-- C3 amended witness: instantiated at the terminal-display state and the
ambiguous payload for `"r1"` (whose status pair changed, so it notifies). -/
theorem notification_iff_pair_sequences_differ_witness :
    ((refreshRideRequests (some userU9) stTerminal [reqAmbiguousR1]).notified = true ↔
      (refreshRideRequests (some userU9) stTerminal [reqAmbiguousR1]).state.requests.map
        statusPair ≠ stTerminal.requests.map statusPair) ∧
    (refreshRideRequests (some userU9) stTerminal [reqAmbiguousR1]).state.requests =
      sortByRecency ([reqAmbiguousR1].map (processRequest userU9)) :=
  notification_iff_pair_sequences_differ userU9 stTerminal [reqAmbiguousR1] rfl

/-- The sort used after every fetch yields a list that is non-increasing in
the code's resolved recency. -/
lemma sortByRecency_pairwise (l : List Request) :
    (sortByRecency l).Pairwise recencyGE :=
  List.sorted_insertionSort recencyGE l

/-- C6 counterexample: an entry carrying only the legacy `time` field
(`time = 100`) is placed before an entry with `createdAt = 50`, because the
code's fallback chain is `createdAt || departureTime || time || 0`; under
the claim's resolver (which omits the `time` fallback) the displayed list
is increasing, not non-increasing. -/
theorem sort_uses_time_fallback :
    (fetchRideRequests (some userU9) ⟨[], true, false⟩
        [reqCreated50, reqTimeOnly]).requests.map claimRecency = [0, 50] ∧
    ¬ (fetchRideRequests (some userU9) ⟨[], true, false⟩
        [reqCreated50, reqTimeOnly]).requests.Pairwise
          (fun a b => claimRecency b ≤ claimRecency a) := by
  refine ⟨by decide, by decide⟩

/-- C6 amended: after any fetch (initial load or refresh) the displayed
list is non-increasing in the code's resolved recency timestamp: creation
time, falling back to departure time, falling back to the legacy `time`
field, falling back to epoch zero. -/
theorem displayed_list_sorted_by_recency (user : SessionUser) (st : PageState)
    (payload : List Request) (h : st.loading = false) :
    (fetchRideRequests (some user) st payload).requests.Pairwise recencyGE ∧
    (refreshRideRequests (some user) st payload).state.requests.Pairwise recencyGE := by
  constructor
  · exact sortByRecency_pairwise (payload.map (processRequest user))
  · have h2 : (refreshRideRequests (some user) st payload).state.requests =
        sortByRecency (payload.map (processRequest user)) := by
      simp [refreshRideRequests, h]
    rw [h2]
    exact sortByRecency_pairwise (payload.map (processRequest user))

/-- C6 amended witness: a fetch and a refresh of the two-element payload,
with the displayed order checked to be non-increasing in `recency`. -/
theorem displayed_list_sorted_by_recency_witness :
    (fetchRideRequests (some userU9) stTerminal
        [reqCreated50, reqTimeOnly]).requests.Pairwise recencyGE ∧
    (refreshRideRequests (some userU9) stTerminal
        [reqCreated50, reqTimeOnly]).state.requests.Pairwise recencyGE :=
  displayed_list_sorted_by_recency userU9 stTerminal [reqCreated50, reqTimeOnly] rfl

/-- C7: a successful cancel removes exactly the entries whose resolved id
equals the cancelled id (every other entry stays) and shows the success
toast; a failed cancel leaves the state untouched and shows an error toast
carrying the backend message when present and non-empty, else the generic
fallback. -/
theorem cancel_contract (st : PageState) (requestId : String)
    (rd : Option (Option String)) :
    (∀ req : Request, req ∈ (handleCancelRequest st requestId .ok).1.requests ↔
      req ∈ st.requests ∧ jsOrS req.id req._id ≠ some requestId) ∧
    (handleCancelRequest st requestId .ok).2 =
      Toast.success "Ride request cancelled successfully" ∧
    (handleCancelRequest st requestId (.failed rd)).1 = st ∧
    (∀ m : String, rd = some (some m) → m ≠ "" →
      (handleCancelRequest st requestId (.failed rd)).2 = Toast.error m) ∧
    ((rd = none ∨ rd = some none) →
      (handleCancelRequest st requestId (.failed rd)).2 =
        Toast.error "Failed to cancel ride request.") := by
  refine ⟨?_, rfl, rfl, ?_, ?_⟩
  · intro req
    simp [handleCancelRequest, List.mem_filter]
  · intro m hm hne
    subst hm
    simp [handleCancelRequest, cancelErrorMessage, hne]
  · intro hcase
    rcases hcase with h | h <;> subst h <;> rfl

/-- C7 witness: cancelling `"r1"` removes the held entry on success, and a
simulated HTTP 400 with message "Too late to cancel" leaves the state
unchanged and surfaces that exact message. -/
theorem cancel_contract_witness :
    (reqConfirmedR1 ∈ (handleCancelRequest stTerminal "r1" .ok).1.requests ↔
      reqConfirmedR1 ∈ stTerminal.requests ∧
        jsOrS reqConfirmedR1.id reqConfirmedR1._id ≠ some "r1") ∧
    (handleCancelRequest stTerminal "r1"
        (.failed (some (some "Too late to cancel")))).1 = stTerminal ∧
    (handleCancelRequest stTerminal "r1"
        (.failed (some (some "Too late to cancel")))).2 =
      Toast.error "Too late to cancel" :=
  ⟨(cancel_contract stTerminal "r1" (some (some "Too late to cancel"))).1 reqConfirmedR1,
    (cancel_contract stTerminal "r1" (some (some "Too late to cancel"))).2.2.1,
    (cancel_contract stTerminal "r1" (some (some "Too late to cancel"))).2.2.2.1
      "Too late to cancel" rfl (by decide)⟩

/-- C8: whenever the blocking-load or bulk-refresh flag is set, the
targeted single-ride re-fetch is a no-op — no network call and the state,
including the request list, is unchanged — and while a blocking load is in
flight the bulk refresh is likewise a no-op. -/
theorem busy_flags_suppress_fetches (user : SessionUser) (st : PageState)
    (rideId : Option String) (resp : RideDetails) (payload : List Request) :
    (st.loading = true ∨ st.refreshing = true →
      refreshSingleRideStatus user st rideId resp = (st, false)) ∧
    (st.loading = true →
      refreshRideRequests (some user) st payload = ⟨st, false, false⟩) := by
  constructor
  · intro h
    cases rideId with
    | none => rfl
    | some rid => rcases h with h | h <;> simp [refreshSingleRideStatus, h]
  · intro h
    simp [refreshRideRequests, h]

/-- C8 witness: with a blocking load in flight, both handlers return the
state unchanged and issue no network call. -/
theorem busy_flags_suppress_fetches_witness :
    refreshSingleRideStatus userU9 stBusy (some "ride1") ⟨none⟩ = (stBusy, false) ∧
    refreshRideRequests (some userU9) stBusy [reqAmbiguousR1] = ⟨stBusy, false, false⟩ :=
  ⟨(busy_flags_suppress_fetches userU9 stBusy (some "ride1") ⟨none⟩
      [reqAmbiguousR1]).1 (Or.inl rfl),
    (busy_flags_suppress_fetches userU9 stBusy (some "ride1") ⟨none⟩
      [reqAmbiguousR1]).2 rfl⟩

/-- C10: the "Request This Ride" button renders iff a user is logged in, a
ride is loaded, the resolved creator id does not strictly equal `user.id`
(the user is not the driver), there is no existing request status, the
ride is neither cancelled nor completed, and one of the two seat-count
fields is positive. -/
theorem request_button_iff (userOpt : Option SessionUser) (rideOpt : Option Ride)
    (requestStatus : Option String) :
    requestButtonShown userOpt rideOpt requestStatus = true ↔
      ∃ user ride, userOpt = some user ∧ rideOpt = some ride ∧
        (passengerScalarId ride.creator == user.id) = false ∧
        truthy requestStatus = false ∧
        ride.status ≠ some "cancelled" ∧
        ride.status ≠ some "completed" ∧
        (jsGtZero ride.availableSeats = true ∨ jsGtZero ride.seatsAvailable = true) := by
  cases userOpt with
  | none => simp [requestButtonShown, canRequestRide, isCurrentUserDriver]
  | some user =>
    cases rideOpt with
    | none => simp [requestButtonShown, canRequestRide, isCurrentUserDriver]
    | some ride =>
      by_cases hdrv : passengerScalarId ride.creator = user.id <;>
        by_cases hrs : truthy requestStatus = true <;>
          by_cases hcan : ride.status = some "cancelled" <;>
            by_cases hcom : ride.status = some "completed" <;>
              simp [requestButtonShown, canRequestRide, isCurrentUserDriver,
                isRideCancelled, isRideCompleted, hdrv, hrs, hcan, hcom,
                Bool.not_eq_true, beq_iff_eq, beq_eq_false_iff_ne,
                Bool.and_eq_true, Bool.or_eq_true]

end GoTogether
